import Mathlib

/-!
Verification of the Improved-Nesting repository: a shallow embedding of
`src/rcon.py` (binary wire-protocol client), `src/db.py` (nest/egg store
operations) and the pure logic of `src/bot.py` (player-info decoder, nest
creation and hatch orchestration), together with theorems settling the
frozen claims about the natural-language specification.

Conventions: Python byte strings are `List Nat` (each entry < 256 where the
source produces real bytes), Python unbounded integers are `ℤ` (or `Nat`
where the source value is provably non-negative), SQL `timestamp` values and
`now()` are an abstract `ℤ` parameter, SQL `double precision` coordinates
are `ℚ`, nullable columns are `Option`, and a table is a `List` of rows in
storage order (`fetchrow`/`fetchval` return the first matching row, matching
a single-row result).
-/

/-! ## Wire protocol client (`src/rcon.py`) -/

/-- `v.to_bytes(n, "little")` (rcon.py lines 40-42): `n` bytes, little endian. -/
def toLEBytes : Nat → Nat → List Nat
  | 0, _ => []
  | n + 1, v => v % 256 :: toLEBytes n (v / 256)

/-- `int.from_bytes(bs, "little")` (rcon.py lines 51, 53-54): unsigned
little-endian interpretation — the source never passes `signed=True`. -/
def fromLEBytes (bs : List Nat) : Nat :=
  bs.foldr (fun b acc => b + 256 * acc) 0

/-- `req_id = 0xBADC0DE` (rcon.py line 38). -/
def REQUEST_ID : Nat := 0xBADC0DE

/-- `RCONClient._send_packet` (rcon.py lines 35-47): the emitted byte
sequence for a packet of type `outType` whose UTF-8 body is `outData`:
`length (LE) | request id (LE) | type (LE) | body | 0x00 0x00` with
`length = 10 + len(body)`. -/
def send_packet (outType : Nat) (outData : List Nat) : List Nat :=
  let length := 10 + outData.length
  toLEBytes 4 length ++ toLEBytes 4 REQUEST_ID ++ toLEBytes 4 outType ++ outData ++ [0, 0]

/-- Python slice `l[a:-2]` on a list: drop the last two entries, then the
first `a`. -/
def pySliceFromDropTwo (l : List Nat) (a : Nat) : List Nat :=
  (l.take (l.length - 2)).drop a

/-- `RCONClient._read_packet` (rcon.py lines 49-56), including the locals it
computes: read a 4-byte length, read exactly `length` further bytes (a short
stream fails, mirroring `readexactly`), then `resp_id = body[0:4]`,
`resp_type = body[4:8]` (computed at line 54), `data = body[8:-2]`.
Integers are decoded unsigned, as in the source. -/
def read_packet_fields (stream : List Nat) : Option (Nat × Nat × List Nat) :=
  if stream.length < 4 then none
  else
    let length := fromLEBytes (stream.take 4)
    let rest := stream.drop 4
    if rest.length < length then none
    else
      let body := rest.take length
      let respId := fromLEBytes ((body.take 4).drop 0)
      let respType := fromLEBytes ((body.take 8).drop 4)
      let data := pySliceFromDropTwo body 8
      some (respId, respType, data)

/-- The pair `_read_packet` actually returns (rcon.py line 56):
`(resp_id, data)` — `resp_type` is computed but dropped. -/
def read_packet (stream : List Nat) : Option (Nat × List Nat) :=
  (read_packet_fields stream).map fun r => (r.1, r.2.2)

/-- Outcome of the reply-checking step of `RCONClient.connect`. -/
inductive ConnectResult
  | ok
  | authFailed
deriving DecidableEq

/-- The authentication-reply check of `RCONClient.connect` (rcon.py lines
16-18): read one packet; `if resp_id == -1: raise`. The Python comparison is
over unbounded integers, so the unsigned `resp_id` is compared with `-1` in
`ℤ`. `none` models `readexactly` failing on a short stream. -/
def connect_reads (stream : List Nat) : Option ConnectResult :=
  (read_packet stream).map fun r =>
    if (r.1 : ℤ) = -1 then ConnectResult.authFailed else ConnectResult.ok

/-- UTF-8 bytes of `"ping"`. -/
def pingBytes : List Nat := [112, 105, 110, 103]

/-- A server reply packet whose 4-byte request-id field holds int32 `-1`
(two's complement wire bytes `ff ff ff ff`), of reply type 2 with empty
body: `length = 10`, then the id, the type, and the two trailing zeros. -/
def authFailReply : List Nat :=
  [10, 0, 0, 0, 255, 255, 255, 255, 2, 0, 0, 0, 0, 0]

/-- C8: encoding a command packet of type 2 with body "ping" and decoding
the resulting byte sequence recovers request type 2 and body "ping"; the
encoded packet's length field counts everything following it (request id,
type, UTF-8 body, and the two trailing zero bytes). -/
theorem c8_packet_round_trip :
    read_packet_fields (send_packet 2 pingBytes) = some (REQUEST_ID, 2, pingBytes)
    ∧ read_packet (send_packet 2 pingBytes) = some (REQUEST_ID, pingBytes)
    ∧ fromLEBytes ((send_packet 2 pingBytes).take 4)
        = ((send_packet 2 pingBytes).drop 4).length := by
  decide

/-- C3: on a reply whose request-id field is int32 `-1` on the wire,
`_read_packet` decodes the id unsigned to `4294967295`, so the
`resp_id == -1` test in `connect` does not fire and `connect` reports
success instead of closing the connection and raising an auth error. -/
theorem c3_auth_failure_not_recognized :
    read_packet_fields authFailReply = some (4294967295, 2, [])
    ∧ connect_reads authFailReply = some ConnectResult.ok
    ∧ connect_reads authFailReply ≠ some ConnectResult.authFailed := by
  decide

/-! ## Nest/egg store (`src/db.py`) -/

/-- A row of the `eggs` table, with the columns the store operations touch:
`id` (primary key), `nest_id`, `slot_index`, nullable `claimed_by_player_id`,
`claimed_at` and `hatched_at`. -/
structure Egg where
  id : Nat
  nest_id : Nat
  slot_index : Nat
  claimed_by_player_id : Option Nat
  claimed_at : Option ℤ
  hatched_at : Option ℤ
deriving DecidableEq

/-- The subquery predicate of `claim_first_egg` (db.py lines 127-128):
`nest_id = $1 and claimed_by_player_id is null`. -/
def unclaimedInNest (nestId : Nat) (e : Egg) : Bool :=
  e.nest_id == nestId && e.claimed_by_player_id.isNone

/-- `order by slot_index limit 1` over a candidate list: the row with the
least `slot_index` (first such row on ties, which SQL leaves unspecified). -/
def minBySlot : List Egg → Option Egg
  | [] => none
  | e :: es =>
    match minBySlot es with
    | none => some e
    | some b => if e.slot_index ≤ b.slot_index then some e else some b

/-- The subquery of `claim_first_egg` (db.py lines 126-131): the unclaimed
egg of the nest with the lowest `slot_index`, if any. -/
def firstUnclaimedEgg (nestId : Nat) (eggs : List Egg) : Option Egg :=
  minBySlot (eggs.filter (unclaimedInNest nestId))

/-- `claim_first_egg` (db.py lines 118-134): one conditional update setting
`claimed_by_player_id` and `claimed_at` on the row whose `id` equals the
subquery result, `returning id` (`fetchval`: `none` when no row updated). -/
def claim_first_egg (nestId playerId : Nat) (now : ℤ) (eggs : List Egg) :
    Option Nat × List Egg :=
  match firstUnclaimedEgg nestId eggs with
  | none => (none, eggs)
  | some sel =>
    (some sel.id,
     eggs.map fun e =>
       if e.id == sel.id then
         { e with claimed_by_player_id := some playerId, claimed_at := some now }
       else e)

/-- `unclaim_egg` (db.py lines 137-152): `fetchrow` the first egg of the
nest claimed by the player (no condition on `hatched_at`); if none, return
`None`; else clear `claimed_by_player_id` on every row of the nest with
that `slot_index` and return the slot index. -/
def unclaim_egg (nestId playerId : Nat) (eggs : List Egg) :
    Option Nat × List Egg :=
  match (eggs.filter fun e =>
      e.nest_id == nestId && e.claimed_by_player_id == some playerId).head? with
  | none => (none, eggs)
  | some row =>
    (some row.slot_index,
     eggs.map fun e =>
       if e.nest_id == nestId && e.slot_index == row.slot_index then
         { e with claimed_by_player_id := none }
       else e)

/-- `mark_egg_hatched` (db.py lines 181-192): set `hatched_at = now()` on
every egg of the nest claimed by the player, `returning id` (`fetchval`
yields the first updated row's id, or `None` when no row matched). -/
def mark_egg_hatched (nestId playerId : Nat) (now : ℤ) (eggs : List Egg) :
    Option Nat × List Egg :=
  ((eggs.filter fun e =>
      e.nest_id == nestId && e.claimed_by_player_id == some playerId).head?.map (·.id),
   eggs.map fun e =>
     if e.nest_id == nestId && e.claimed_by_player_id == some playerId then
       { e with hatched_at := some now }
     else e)

/-- The abstract claim-state of an egg slot: `(claimant set?, hatched?)`. -/
def slotState (e : Egg) : Bool × Bool :=
  (e.claimed_by_player_id.isSome, e.hatched_at.isSome)

/-- The transitions the three slot operations actually allow on a slot's
abstract state: stay put, gain a claimant (claim — also on a hatched slot),
lose the claimant (unclaim — also on a hatched slot), or become hatched
while claimed (hatch). No edge clears the hatched flag. -/
def slotEdge (a b : Bool × Bool) : Prop :=
  b = a
  ∨ (a.1 = false ∧ b = (true, a.2))
  ∨ (a.1 = true ∧ b = (false, a.2))
  ∨ (a.1 = true ∧ b = (true, true))

theorem slotEdge_refl (a : Bool × Bool) : slotEdge a a := Or.inl rfl

/-- A concrete hatched, still-claimed egg: id 1, nest 5, slot 1, claimed by
player 7 at time 0, hatched at time 3. -/
def hatchedEgg : Egg :=
  ⟨1, 5, 1, some 7, some 0, some 3⟩

/-- C4 counterexample: `unclaim_egg` clears the claimant of a slot that has
been hatched (`hatched_at = some 3`), returning its slot index — so a
hatched slot is not terminal, contrary to the claim. -/
theorem c4_unclaim_clears_hatched_slot :
    hatchedEgg.hatched_at.isSome = true
    ∧ (unclaim_egg 5 7 [hatchedEgg]).1 = some 1
    ∧ (unclaim_egg 5 7 [hatchedEgg]).2
        = [{ hatchedEgg with claimed_by_player_id := none }] := by
  decide

theorem forall2_slotEdge_refl (l : List Egg) :
    List.Forall₂ slotEdge (l.map slotState) (l.map slotState) := by
  induction l with
  | nil => exact List.Forall₂.nil
  | cons e es ih => exact List.Forall₂.cons (slotEdge_refl _) ih

theorem forall2_slotEdge_map (l : List Egg) (f : Egg → Egg)
    (h : ∀ e, slotEdge (slotState e) (slotState (f e))) :
    List.Forall₂ slotEdge (l.map slotState) ((l.map f).map slotState) := by
  induction l with
  | nil => exact List.Forall₂.nil
  | cons e es ih => exact List.Forall₂.cons (h e) ih

theorem slotEdge_set_claimant (e : Egg) (p : Nat) (t : ℤ) :
    slotEdge (slotState e)
      (slotState { e with claimed_by_player_id := some p, claimed_at := some t }) := by
  cases hc : e.claimed_by_player_id with
  | none => exact Or.inr (Or.inl ⟨by simp [slotState, hc], by simp [slotState, hc]⟩)
  | some q => exact Or.inl (by simp [slotState, hc])

theorem slotEdge_clear_claimant (e : Egg) :
    slotEdge (slotState e) (slotState { e with claimed_by_player_id := none }) := by
  cases hc : e.claimed_by_player_id with
  | none => exact Or.inl (by simp [slotState, hc])
  | some q => exact Or.inr (Or.inr (Or.inl ⟨by simp [slotState, hc], by simp [slotState, hc]⟩))

theorem slotEdge_set_hatched (e : Egg) (t : ℤ) (hc : e.claimed_by_player_id.isSome = true) :
    slotEdge (slotState e) (slotState { e with hatched_at := some t }) := by
  exact Or.inr (Or.inr (Or.inr ⟨by simpa [slotState] using hc, by simp [slotState, hc]⟩))

/-- C4 (amended): each of claim, unclaim and hatch moves every slot only
along `slotEdge`: unclaimed→claimed (also for a hatched slot),
claimed→unclaimed (also for a hatched slot, clearing the claimant while
the hatch timestamp stays), claimed→hatched, or no move — in particular no
operation ever clears the hatched flag, but `unclaim_egg` does clear the
claimant of a hatched slot, so hatched is not a terminal claim-state. -/
theorem c4_slot_state_machine (nestId playerId : Nat) (now : ℤ) (eggs : List Egg) :
    List.Forall₂ slotEdge (eggs.map slotState)
      (((claim_first_egg nestId playerId now eggs).2).map slotState)
    ∧ List.Forall₂ slotEdge (eggs.map slotState)
      (((unclaim_egg nestId playerId eggs).2).map slotState)
    ∧ List.Forall₂ slotEdge (eggs.map slotState)
      (((mark_egg_hatched nestId playerId now eggs).2).map slotState) := by
  refine ⟨?_, ?_, ?_⟩
  · unfold claim_first_egg
    cases firstUnclaimedEgg nestId eggs with
    | none => exact forall2_slotEdge_refl eggs
    | some sel =>
      refine forall2_slotEdge_map eggs _ fun e => ?_
      by_cases hid : (e.id == sel.id) = true
      · rw [if_pos hid]
        exact slotEdge_set_claimant e playerId now
      · rw [if_neg hid]
        exact slotEdge_refl _
  · unfold unclaim_egg
    cases (eggs.filter fun e =>
        e.nest_id == nestId && e.claimed_by_player_id == some playerId).head? with
    | none => exact forall2_slotEdge_refl eggs
    | some row =>
      refine forall2_slotEdge_map eggs _ fun e => ?_
      by_cases hm : (e.nest_id == nestId && e.slot_index == row.slot_index) = true
      · rw [if_pos hm]
        exact slotEdge_clear_claimant e
      · rw [if_neg hm]
        exact slotEdge_refl _
  · unfold mark_egg_hatched
    refine forall2_slotEdge_map eggs _ fun e => ?_
    by_cases hm : (e.nest_id == nestId && e.claimed_by_player_id == some playerId) = true
    · rw [if_pos hm]
      refine slotEdge_set_hatched e now ?_
      have := (Bool.and_eq_true _ _).mp hm
      have h2 : e.claimed_by_player_id = some playerId := by
        simpa using this.2
      simp [h2]
    · rw [if_neg hm]
      exact slotEdge_refl _

theorem minBySlot_eq_none_iff (l : List Egg) : minBySlot l = none ↔ l = [] := by
  cases l with
  | nil => simp [minBySlot]
  | cons e es =>
    simp only [minBySlot]
    cases minBySlot es with
    | none => simp
    | some b =>
      by_cases h : e.slot_index ≤ b.slot_index <;> simp [h]

theorem minBySlot_spec (l : List Egg) (e : Egg) (h : minBySlot l = some e) :
    e ∈ l ∧ ∀ x ∈ l, e.slot_index ≤ x.slot_index := by
  induction l generalizing e with
  | nil => simp [minBySlot] at h
  | cons a as ih =>
    cases hm : minBySlot as with
    | none =>
      have has : as = [] := (minBySlot_eq_none_iff as).mp hm
      subst has
      simp only [minBySlot] at h
      cases h
      simp
    | some b =>
      simp only [minBySlot, hm] at h
      obtain ⟨hb_mem, hb_min⟩ := ih b hm
      by_cases hle : a.slot_index ≤ b.slot_index
      · rw [if_pos hle] at h
        cases h
        refine ⟨List.mem_cons_self _ _, ?_⟩
        intro x hx
        rcases List.mem_cons.mp hx with hx | hx
        · subst hx; exact le_refl _
        · exact le_trans hle (hb_min x hx)
      · rw [if_neg hle] at h
        cases h
        refine ⟨List.mem_cons_of_mem _ hb_mem, ?_⟩
        intro x hx
        rcases List.mem_cons.mp hx with hx | hx
        · subst hx; exact le_of_not_le hle
        · exact hb_min x hx

/-- C6: `claim_first_egg` returns `none` exactly when the nest has no
unclaimed slot; when it returns an egg id, that egg is an unclaimed slot of
the nest with the lowest `slot_index`, and the single conditional update
sets its claimant and claim time, leaving every other row unchanged. -/
theorem c6_claim_lowest_unclaimed (nestId playerId : Nat) (now : ℤ) (eggs : List Egg) :
    ((claim_first_egg nestId playerId now eggs).1 = none
      ↔ ∀ e ∈ eggs, ¬(e.nest_id = nestId ∧ e.claimed_by_player_id = none))
    ∧ ∀ eid, (claim_first_egg nestId playerId now eggs).1 = some eid →
        ∃ sel, sel ∈ eggs ∧ sel.id = eid ∧ sel.nest_id = nestId
          ∧ sel.claimed_by_player_id = none
          ∧ (∀ e ∈ eggs, e.nest_id = nestId → e.claimed_by_player_id = none →
              sel.slot_index ≤ e.slot_index)
          ∧ (claim_first_egg nestId playerId now eggs).2
              = eggs.map (fun e =>
                  if e.id == sel.id then
                    { e with claimed_by_player_id := some playerId,
                             claimed_at := some now }
                  else e) := by
  constructor
  · unfold claim_first_egg firstUnclaimedEgg
    cases hm : minBySlot (eggs.filter (unclaimedInNest nestId)) with
    | none =>
      have hall := List.filter_eq_nil_iff.mp ((minBySlot_eq_none_iff _).mp hm)
      constructor
      · intro _ e he hcontra
        exact hall e he (by simp [unclaimedInNest, hcontra.1, hcontra.2])
      · intro _
        rfl
    | some sel =>
      obtain ⟨hmem, -⟩ := minBySlot_spec _ _ hm
      obtain ⟨hmem', hpred⟩ := List.mem_filter.mp hmem
      simp only [unclaimedInNest, Bool.and_eq_true, beq_iff_eq,
        Option.isNone_iff_eq_none] at hpred
      constructor
      · intro h
        cases h
      · intro hall
        exact absurd ⟨hpred.1, hpred.2⟩ (hall sel hmem')
  · intro eid heid
    unfold claim_first_egg firstUnclaimedEgg at heid ⊢
    cases hm : minBySlot (eggs.filter (unclaimedInNest nestId)) with
    | none =>
      rw [hm] at heid
      simp at heid
    | some sel =>
      rw [hm] at heid
      simp only [Option.some.injEq] at heid
      obtain ⟨hmem, hmin⟩ := minBySlot_spec _ _ hm
      obtain ⟨hmem', hpred⟩ := List.mem_filter.mp hmem
      simp only [unclaimedInNest, Bool.and_eq_true, beq_iff_eq,
        Option.isNone_iff_eq_none] at hpred
      refine ⟨sel, hmem', heid, hpred.1, hpred.2, ?_, rfl⟩
      intro e he hnest hclaim
      exact hmin e (List.mem_filter.mpr ⟨he, by simp [unclaimedInNest, hnest, hclaim]⟩)

/-- Concrete nest used to witness C6: nest 7 with two unclaimed eggs, slot
2 stored before slot 1. -/
def c6Eggs : List Egg :=
  [⟨1, 7, 2, none, none, none⟩, ⟨2, 7, 1, none, none, none⟩]

theorem c6_claim_lowest_unclaimed_witness :
    ∃ sel, sel ∈ c6Eggs ∧ sel.id = 2 ∧ sel.nest_id = 7
      ∧ sel.claimed_by_player_id = none
      ∧ (∀ e ∈ c6Eggs, e.nest_id = 7 → e.claimed_by_player_id = none →
          sel.slot_index ≤ e.slot_index)
      ∧ (claim_first_egg 7 5 11 c6Eggs).2
          = c6Eggs.map (fun e =>
              if e.id == sel.id then
                { e with claimed_by_player_id := some 5, claimed_at := some 11 }
              else e) :=
  (c6_claim_lowest_unclaimed 7 5 11 c6Eggs).2 2 (by decide)

/-- A row of the `nests` table, with the columns `create_nest` inserts
(db.py lines 83-90); the presentation-layer `discord_channel_id` /
`discord_message_id` / image columns are omitted, they play no part in the
claims. `status` is the SQL text value, `'open'` or `'expired'`. -/
structure Nest where
  id : Nat
  season_id : Nat
  species_id : Nat
  mother_id : Nat
  father_id : Option Nat
  created_by_player_id : Nat
  mother_x : Option ℚ
  mother_y : Option ℚ
  mother_z : Option ℚ
  server_name : String
  asexual : Bool
  created_at : ℤ
  expires_at : ℤ
  status : String
deriving DecidableEq

/-- The WHERE clause of `expire_nests` (db.py line 112):
`status = 'open' and expires_at < now()`. -/
def nestDue (now : ℤ) (n : Nest) : Bool :=
  n.status == "open" && decide (n.expires_at < now)

/-- `expire_nests` (db.py lines 104-115): one conditional update setting
`status = 'expired'` on every open nest past `expires_at`, returning the
updated rows (modelled by their ids). -/
def expire_nests (now : ℤ) (nests : List Nest) : List Nat × List Nest :=
  ((nests.filter (nestDue now)).map (·.id),
   nests.map fun n => if nestDue now n then { n with status := "expired" } else n)

theorem nestDue_after_sweep (now : ℤ) (n : Nest) :
    nestDue now (if nestDue now n then { n with status := "expired" } else n) = false := by
  by_cases h : nestDue now n = true
  · rw [if_pos h]
    simp [nestDue]
  · rw [if_neg h]
    exact Bool.eq_false_iff.mpr h

theorem map_eq_self_of {α : Type _} (f : α → α) :
    ∀ l : List α, (∀ x ∈ l, f x = x) → l.map f = l
  | [], _ => rfl
  | a :: l, h => by
    rw [List.map_cons, h a (List.mem_cons_self a l),
      map_eq_self_of f l (fun x hx => h x (List.mem_cons_of_mem _ hx))]

theorem expire_keeps_not_due (now : ℤ) (nests : List Nest) :
    ((expire_nests now nests).2).filter (fun n => !decide (n.expires_at < now))
      = nests.filter (fun n => !decide (n.expires_at < now)) := by
  show (nests.map fun n =>
      if nestDue now n then { n with status := "expired" } else n).filter _
    = nests.filter _
  induction nests with
  | nil => rfl
  | cons a l ih =>
    rw [List.map_cons, List.filter_cons, List.filter_cons]
    by_cases hd : nestDue now a = true
    · have hco : a.status = "open" ∧ a.expires_at < now := by simpa [nestDue] using hd
      rw [if_pos hd, if_neg (by simp [hco.2]), if_neg (by simp [hco.2])]
      exact ih
    · rw [if_neg hd]
      by_cases hq : (!decide (a.expires_at < now)) = true
      · rw [if_pos hq, if_pos hq, ih]
      · rw [if_neg hq, if_neg hq]
        exact ih

/-- C7: `expire_nests` returns exactly the ids of the open nests whose
expiry time has passed; running it a second time with the same `now`
returns nothing and changes nothing; and rows not yet due pass through both
sweeps unchanged. -/
theorem c7_expiry_idempotent (now : ℤ) (nests : List Nest) :
    (expire_nests now nests).1 = (nests.filter (nestDue now)).map (·.id)
    ∧ (expire_nests now (expire_nests now nests).2).1 = []
    ∧ (expire_nests now (expire_nests now nests).2).2 = (expire_nests now nests).2
    ∧ ((expire_nests now nests).2).filter (fun n => !decide (n.expires_at < now))
        = nests.filter (fun n => !decide (n.expires_at < now)) := by
  have hnone : ∀ n ∈ (expire_nests now nests).2, nestDue now n = false := by
    intro n hn
    obtain ⟨x, _, rfl⟩ := List.mem_map.mp hn
    exact nestDue_after_sweep now x
  refine ⟨rfl, ?_, ?_, expire_keeps_not_due now nests⟩
  · have hfil : ((expire_nests now nests).2).filter (nestDue now) = [] :=
      List.filter_eq_nil_iff.mpr fun n hn => by simp [hnone n hn]
    show (((expire_nests now nests).2).filter (nestDue now)).map (·.id) = []
    rw [hfil]
    rfl
  · show ((expire_nests now nests).2).map _ = (expire_nests now nests).2
    exact map_eq_self_of _ _ fun n hn => if_neg (by simp [hnone n hn])

/-- A row of `player_season_species_stats` for the active season (the
season key, fixed by `(select season_id from active_season)` in every
statement of `bump_clutch_counter`, is left implicit). -/
structure StatsRow where
  player_id : Nat
  species_id : Nat
  clutches_started : Nat
deriving DecidableEq

/-- The conflict/WHERE key of `bump_clutch_counter` (db.py lines 164,
172-173): `player_id = $1 and species_id = $2`. -/
def statsKeyMatch (p s : Nat) (r : StatsRow) : Bool :=
  r.player_id == p && r.species_id == s

/-- First statement of `bump_clutch_counter` (db.py lines 161-165):
`insert ... values (.., $1, $2, 0) on conflict do nothing`. -/
def ensure_stats_row (p s : Nat) (st : List StatsRow) : List StatsRow :=
  if st.any (statsKeyMatch p s) then st else st ++ [⟨p, s, 0⟩]

/-- The WHERE clause of the conditional increment (db.py lines 171-174):
key match and `clutches_started < $3`. -/
def bumpPred (p s maxC : Nat) (r : StatsRow) : Bool :=
  statsKeyMatch p s r && decide (r.clutches_started < maxC)

/-- `bump_clutch_counter` (db.py lines 155-178): ensure the stats row
exists at 0, then increment `clutches_started` on the rows satisfying
`bumpPred`; the returned Bool is `result is not None` — whether the
conditional update affected a row. -/
def bump_clutch_counter (p s maxC : Nat) (st : List StatsRow) :
    List StatsRow × Bool :=
  let st1 := ensure_stats_row p s st
  (st1.map fun r =>
     if bumpPred p s maxC r then { r with clutches_started := r.clutches_started + 1 }
     else r,
   st1.any (bumpPred p s maxC))

/-- The counter stored for `(p, s)`: value of the first matching row. -/
def statsLookup (p s : Nat) (st : List StatsRow) : Option Nat :=
  (st.find? (statsKeyMatch p s)).map (·.clutches_started)

/-- The table's `(season, player, species)` uniqueness constraint, assumed
by `on conflict` in the source schema. -/
def statsKeysUnique (st : List StatsRow) : Prop :=
  List.Pairwise (fun a b => ¬(a.player_id = b.player_id ∧ a.species_id = b.species_id)) st

theorem ensure_lookup (p s : Nat) (st : List StatsRow) :
    statsLookup p s (ensure_stats_row p s st) = some ((statsLookup p s st).getD 0) := by
  unfold ensure_stats_row
  by_cases ha : st.any (statsKeyMatch p s) = true
  · rw [if_pos ha]
    obtain ⟨r, hr, hkr⟩ := List.any_eq_true.mp ha
    obtain ⟨r0, hr0⟩ := Option.isSome_iff_exists.mp (List.find?_isSome.mpr ⟨r, hr, hkr⟩)
    unfold statsLookup
    rw [hr0]
    rfl
  · rw [if_neg ha]
    have hnone : List.find? (statsKeyMatch p s) st = none :=
      List.find?_eq_none.mpr fun x hx hk => ha (List.any_eq_true.mpr ⟨x, hx, hk⟩)
    unfold statsLookup
    rw [List.find?_append, hnone]
    simp [statsKeyMatch, hnone]

theorem ensure_unique (p s : Nat) (st : List StatsRow) (hu : statsKeysUnique st) :
    statsKeysUnique (ensure_stats_row p s st) := by
  unfold ensure_stats_row
  by_cases ha : st.any (statsKeyMatch p s) = true
  · rw [if_pos ha]
    exact hu
  · rw [if_neg ha]
    unfold statsKeysUnique at hu ⊢
    rw [List.pairwise_append]
    refine ⟨hu, List.pairwise_singleton _ _, ?_⟩
    intro a haMem b hb
    simp only [List.mem_singleton] at hb
    subst hb
    intro hcontra
    exact ha (List.any_eq_true.mpr
      ⟨a, haMem, by simp [statsKeyMatch, hcontra.1, hcontra.2]⟩)

theorem find?_key_of_mem (p s : Nat) :
    ∀ st : List StatsRow, statsKeysUnique st →
      ∀ r ∈ st, statsKeyMatch p s r = true →
        List.find? (statsKeyMatch p s) st = some r
  | [], _, r, hr, _ => absurd hr (List.not_mem_nil r)
  | a :: l, hu, r, hr, hkr => by
    have hpw := List.pairwise_cons.mp hu
    rcases List.mem_cons.mp hr with h | h
    · subst h
      exact List.find?_cons_of_pos _ hkr
    · by_cases hka : statsKeyMatch p s a = true
      · exfalso
        simp only [statsKeyMatch, Bool.and_eq_true, beq_iff_eq] at hka hkr
        exact hpw.1 r h ⟨hka.1.trans hkr.1.symm, hka.2.trans hkr.2.symm⟩
      · rw [List.find?_cons_of_neg _ hka]
        exact find?_key_of_mem p s l hpw.2 r h hkr

theorem any_bump_iff (p s maxC : Nat) (st : List StatsRow) (hu : statsKeysUnique st)
    (r0 : StatsRow) (hf : List.find? (statsKeyMatch p s) st = some r0) :
    st.any (bumpPred p s maxC) = decide (r0.clutches_started < maxC) := by
  by_cases hc : r0.clutches_started < maxC
  · have hk : statsKeyMatch p s r0 = true := List.find?_some hf
    have hany : st.any (bumpPred p s maxC) = true :=
      List.any_eq_true.mpr
        ⟨r0, List.mem_of_find?_eq_some hf, by simp [bumpPred, hk, hc]⟩
    rw [hany]
    simp [hc]
  · have hany : st.any (bumpPred p s maxC) = false := by
      rw [List.any_eq_false]
      intro r hr hbp
      have hk : statsKeyMatch p s r = true := ((Bool.and_eq_true _ _).mp hbp).1
      have hcr : r.clutches_started < maxC :=
        of_decide_eq_true ((Bool.and_eq_true _ _).mp hbp).2
      have hfr := find?_key_of_mem p s st hu r hr hk
      rw [hf] at hfr
      injection hfr with he
      subst he
      exact hc hcr
    rw [hany]
    simp [hc]

theorem statsKeyMatch_after_bump (p s maxC : Nat) (r : StatsRow) :
    statsKeyMatch p s
        (if bumpPred p s maxC r then { r with clutches_started := r.clutches_started + 1 }
         else r)
      = statsKeyMatch p s r := by
  by_cases h : bumpPred p s maxC r = true
  · rw [if_pos h]
    rfl
  · rw [if_neg h]

theorem lookup_after_bump (p s maxC : Nat) :
    ∀ st : List StatsRow,
      statsLookup p s (st.map fun r =>
          if bumpPred p s maxC r then { r with clutches_started := r.clutches_started + 1 }
          else r)
        = (statsLookup p s st).map fun c => if c < maxC then c + 1 else c
  | [] => rfl
  | a :: l => by
    by_cases hk : statsKeyMatch p s a = true
    · unfold statsLookup
      rw [List.map_cons,
        List.find?_cons_of_pos _ (by rw [statsKeyMatch_after_bump]; exact hk),
        List.find?_cons_of_pos _ hk]
      by_cases hc : a.clutches_started < maxC
      · rw [if_pos (show bumpPred p s maxC a = true by simp [bumpPred, hk, hc])]
        simp [hc]
      · rw [if_neg (show ¬bumpPred p s maxC a = true by simp [bumpPred, hc])]
        simp [hc]
    · unfold statsLookup
      rw [List.map_cons,
        List.find?_cons_of_neg _ (by rw [statsKeyMatch_after_bump]; exact hk),
        List.find?_cons_of_neg _ hk]
      exact lookup_after_bump p s maxC l

theorem bump_spec (p s maxC : Nat) (st : List StatsRow) (hu : statsKeysUnique st) :
    (bump_clutch_counter p s maxC st).2
        = decide ((statsLookup p s st).getD 0 < maxC)
    ∧ statsLookup p s (bump_clutch_counter p s maxC st).1
        = some (if (statsLookup p s st).getD 0 < maxC
                then (statsLookup p s st).getD 0 + 1
                else (statsLookup p s st).getD 0) := by
  have hl1 := ensure_lookup p s st
  have hu1 := ensure_unique p s st hu
  obtain ⟨r0, hr0⟩ : ∃ r0,
      List.find? (statsKeyMatch p s) (ensure_stats_row p s st) = some r0 := by
    cases hfind : List.find? (statsKeyMatch p s) (ensure_stats_row p s st) with
    | none =>
      unfold statsLookup at hl1
      rw [hfind] at hl1
      cases hl1
    | some r0 => exact ⟨r0, rfl⟩
  have hc0 : r0.clutches_started = (statsLookup p s st).getD 0 := by
    unfold statsLookup at hl1
    rw [hr0] at hl1
    simpa using hl1
  constructor
  · show (ensure_stats_row p s st).any (bumpPred p s maxC) = _
    rw [any_bump_iff p s maxC _ hu1 r0 hr0, hc0]
  · show statsLookup p s ((ensure_stats_row p s st).map _) = _
    rw [lookup_after_bump, hl1]
    rfl

/-- C1 counterexample: with `max_clutches = 0` — which the claim reads as
"unlimited" — the conditional increment's condition `clutches_started < 0`
holds for no row, so starting from an empty stats table the bump creates
the row at 0 and then fails (returns `false`, i.e. cap reached) instead of
incrementing unconditionally. -/
theorem c1_zero_cap_not_unlimited :
    (bump_clutch_counter 1 2 0 []).2 = false
    ∧ (bump_clutch_counter 1 2 0 []).1 = [⟨1, 2, 0⟩] := by
  decide

/-- `create_nest` (db.py lines 78-93): the inserted `nests` row.
`created_by_player_id` is the same SQL parameter `$2` as `mother_id`;
`mother_x/y/z` come from the non-null 3-tuple `coords`; `expires_at` is
`now() + interval '30 minutes'` (1800 s); `status` is `'open'`. -/
def create_nest (nid seasonId speciesId motherId : Nat) (fatherId : Option Nat)
    (coords : ℚ × ℚ × ℚ) (serverName : String) (asexual : Bool) (now : ℤ) : Nest :=
  { id := nid, season_id := seasonId, species_id := speciesId,
    mother_id := motherId, father_id := fatherId,
    created_by_player_id := motherId,
    mother_x := some coords.1, mother_y := some coords.2.1, mother_z := some coords.2.2,
    server_name := serverName, asexual := asexual,
    created_at := now, expires_at := now + 1800, status := "open" }

/-- The stats and nests tables together, for the create-nest path. -/
structure NestDB where
  stats : List StatsRow
  nests : List Nest
deriving DecidableEq

/-- Modelled from the spec: `db.start_nest_transaction` is invoked by
`anthranest_slash` (bot.py line 451) but its definition is missing from
`db.py`; per §4.3 CreateNest it is `bump_clutch_counter` followed — only
when the bump succeeded — by the `create_nest` insert, and a `None`
(CapReachedError) result with no nest row otherwise. -/
def start_nest_transaction (nid seasonId playerId speciesId : Nat)
    (fatherId : Option Nat) (coords : ℚ × ℚ × ℚ) (serverName : String)
    (asexual : Bool) (maxClutches : Nat) (now : ℤ) (db : NestDB) :
    Option Nat × NestDB :=
  let res := bump_clutch_counter playerId speciesId maxClutches db.stats
  if res.2 then
    (some nid,
     ⟨res.1,
      db.nests ++ [create_nest nid seasonId speciesId playerId fatherId coords
        serverName asexual now]⟩)
  else (none, ⟨res.1, db.nests⟩)

/-- C1 (amended): a CreateNest attempt first ensures the stats row for the
player and species exists at 0, then increments it exactly when the current
value is strictly below `maxClutches` — with no special case for
`maxClutches = 0`, so a zero cap means the increment never matches; when
the increment matches no row the attempt returns `none` (CapReachedError)
and inserts no nest. -/
theorem c1_cap_strictly_below (nid seasonId playerId speciesId : Nat)
    (fatherId : Option Nat) (coords : ℚ × ℚ × ℚ) (serverName : String)
    (asexual : Bool) (maxClutches : Nat) (now : ℤ) (db : NestDB)
    (hu : statsKeysUnique db.stats) :
    ((start_nest_transaction nid seasonId playerId speciesId fatherId coords
        serverName asexual maxClutches now db).1.isSome = true
      ↔ (statsLookup playerId speciesId db.stats).getD 0 < maxClutches)
    ∧ statsLookup playerId speciesId
        (start_nest_transaction nid seasonId playerId speciesId fatherId coords
          serverName asexual maxClutches now db).2.stats
        = some (if (statsLookup playerId speciesId db.stats).getD 0 < maxClutches
                then (statsLookup playerId speciesId db.stats).getD 0 + 1
                else (statsLookup playerId speciesId db.stats).getD 0)
    ∧ ((start_nest_transaction nid seasonId playerId speciesId fatherId coords
          serverName asexual maxClutches now db).1 = none →
        (start_nest_transaction nid seasonId playerId speciesId fatherId coords
          serverName asexual maxClutches now db).2.nests = db.nests)
    ∧ (maxClutches = 0 →
        (start_nest_transaction nid seasonId playerId speciesId fatherId coords
          serverName asexual maxClutches now db).1 = none) := by
  obtain ⟨hb2, hb1⟩ := bump_spec playerId speciesId maxClutches db.stats hu
  unfold start_nest_transaction
  by_cases hlt : (statsLookup playerId speciesId db.stats).getD 0 < maxClutches
  · have ht : (bump_clutch_counter playerId speciesId maxClutches db.stats).2 = true := by
      rw [hb2]
      simp [hlt]
    rw [if_pos ht]
    refine ⟨by simp [hlt], by simpa using hb1, by simp, ?_⟩
    intro h0
    subst h0
    exact absurd hlt (Nat.not_lt_zero _)
  · have ht : (bump_clutch_counter playerId speciesId maxClutches db.stats).2 = false := by
      rw [hb2]
      simp [hlt]
    rw [if_neg (by simp [ht])]
    exact ⟨by simp [hlt], by simpa using hb1, fun _ => rfl, fun _ => rfl⟩

/-- Concrete input witnessing C1's amended theorem: player 4, species 9,
cap 2, one prior clutch recorded. -/
def c1Db : NestDB := ⟨[⟨4, 9, 1⟩], []⟩

theorem c1_cap_strictly_below_witness :
    ((start_nest_transaction 1 1 4 9 none (0, 0, 0) "Anthrax" false 2 0 c1Db).1.isSome
        = true
      ↔ (statsLookup 4 9 c1Db.stats).getD 0 < 2)
    ∧ statsLookup 4 9
        (start_nest_transaction 1 1 4 9 none (0, 0, 0) "Anthrax" false 2 0 c1Db).2.stats
        = some (if (statsLookup 4 9 c1Db.stats).getD 0 < 2
                then (statsLookup 4 9 c1Db.stats).getD 0 + 1
                else (statsLookup 4 9 c1Db.stats).getD 0)
    ∧ ((start_nest_transaction 1 1 4 9 none (0, 0, 0) "Anthrax" false 2 0 c1Db).1 = none →
        (start_nest_transaction 1 1 4 9 none (0, 0, 0) "Anthrax" false 2 0 c1Db).2.nests
          = c1Db.nests)
    ∧ (2 = 0 →
        (start_nest_transaction 1 1 4 9 none (0, 0, 0) "Anthrax" false 2 0 c1Db).1 = none) :=
  c1_cap_strictly_below 1 1 4 9 none (0, 0, 0) "Anthrax" false 2 0 c1Db
    (by unfold statsKeysUnique c1Db; exact List.pairwise_singleton _ _)

/-! ## Hatch and nest creation (`src/bot.py`) -/

/-- A remote console command issued through the RCON helpers of bot.py:
`setattr_growth` (lines 117-131) and `teleport` (lines 134-149). -/
inductive RemoteCmd
  | setattrGrowth (aid : String) (value : ℚ)
  | teleportTo (aid : String) (x y z : ℚ)
deriving DecidableEq

/-- Outcome of the hatch button handler, one per early return of
`NestView.hatch_button` (bot.py lines 531-573). -/
inductive HatchOutcome
  | nestNotFound
  | noAlderonId
  | preconditionError
  | hatched (eggId : Nat)
  | noClaimedEgg
deriving DecidableEq

/-- What a hatch attempt did: its user-visible outcome, the remote console
commands it issued, in order, and the eggs table afterwards. -/
structure HatchResult where
  outcome : HatchOutcome
  remoteCmds : List RemoteCmd
  eggs : List Egg
deriving DecidableEq

/-- The mother-position precondition of `hatch_button` (bot.py line 549):
`mother_x is not None and mother_y is not None and mother_z is not None`. -/
def motherPosSet (mx my mz : Option ℚ) : Bool :=
  mx.isSome && my.isSome && mz.isSome

/-- `NestView.hatch_button` (bot.py lines 531-573): fetch the nest's
mother coordinates (`none` = nest not found), look up the player's Alderon
id, and — only when all three coordinates are present — reset growth to 0,
teleport to the stored position, and mark the player's claimed egg hatched;
with any coordinate missing, reply with the precondition message and issue
no remote command. -/
def hatch_button (nestRow : Option (Option ℚ × Option ℚ × Option ℚ))
    (alderonId : Option String) (nestId playerId : Nat) (now : ℤ)
    (eggs : List Egg) : HatchResult :=
  match nestRow with
  | none => ⟨HatchOutcome.nestNotFound, [], eggs⟩
  | some (mx, my, mz) =>
    match alderonId with
    | none => ⟨HatchOutcome.noAlderonId, [], eggs⟩
    | some aid =>
      if motherPosSet mx my mz then
        let cmds := [RemoteCmd.setattrGrowth aid 0,
          RemoteCmd.teleportTo aid (mx.getD 0) (my.getD 0) (mz.getD 0)]
        match mark_egg_hatched nestId playerId now eggs with
        | (some eggId, eggs') => ⟨HatchOutcome.hatched eggId, cmds, eggs'⟩
        | (none, eggs') => ⟨HatchOutcome.noClaimedEgg, cmds, eggs'⟩
      else ⟨HatchOutcome.preconditionError, [], eggs⟩

/-- C5: when any of the nest's three stored mother coordinates is null, the
hatch handler fails with the precondition error, issues no remote command
(neither the growth reset nor the teleport), and leaves the eggs table
untouched. -/
theorem c5_hatch_needs_mother_position (mx my mz : Option ℚ) (aid : String)
    (nestId playerId : Nat) (now : ℤ) (eggs : List Egg)
    (h : mx = none ∨ my = none ∨ mz = none) :
    (hatch_button (some (mx, my, mz)) (some aid) nestId playerId now eggs).outcome
        = HatchOutcome.preconditionError
    ∧ (hatch_button (some (mx, my, mz)) (some aid) nestId playerId now eggs).remoteCmds = []
    ∧ (hatch_button (some (mx, my, mz)) (some aid) nestId playerId now eggs).eggs = eggs := by
  have hpos : motherPosSet mx my mz = false := by
    rcases h with h | h | h <;> subst h <;> simp [motherPosSet]
  simp [hatch_button, hpos]

theorem c5_hatch_needs_mother_position_witness :
    (hatch_button (some (some 1, none, some 3)) (some "123-456-789") 7 5 0 []).outcome
        = HatchOutcome.preconditionError
    ∧ (hatch_button (some (some 1, none, some 3)) (some "123-456-789") 7 5 0 []).remoteCmds
        = []
    ∧ (hatch_button (some (some 1, none, some 3)) (some "123-456-789") 7 5 0 []).eggs = [] :=
  c5_hatch_needs_mother_position (some 1) none (some 3) "123-456-789" 7 5 0 []
    (Or.inr (Or.inl rfl))

/-- Coordinate choice of `anthranest_slash` (bot.py line 445):
`coords = pinfo["coords"] if pinfo.get("coords") else (0, 0, 0)`. -/
def chooseCoords (pc : Option (ℚ × ℚ × ℚ)) : ℚ × ℚ × ℚ :=
  pc.getD (0, 0, 0)

/-- C10: every nest row built by `create_nest` from the creator's chosen
coordinates — live position when available, `(0,0,0)` otherwise — has all
three mother coordinates non-null, so the hatch handler's mother-position
precondition holds and the hatch path (growth reset plus teleport) is taken
rather than the precondition error. -/
theorem c10_created_nests_satisfy_hatch_precondition (pc : Option (ℚ × ℚ × ℚ))
    (nid seasonId speciesId motherId : Nat) (fatherId : Option Nat)
    (serverName : String) (asexual : Bool) (now : ℤ) (aid : String)
    (playerId : Nat) (t : ℤ) (eggs : List Egg) :
    (create_nest nid seasonId speciesId motherId fatherId (chooseCoords pc)
        serverName asexual now).mother_x.isSome = true
    ∧ (create_nest nid seasonId speciesId motherId fatherId (chooseCoords pc)
        serverName asexual now).mother_y.isSome = true
    ∧ (create_nest nid seasonId speciesId motherId fatherId (chooseCoords pc)
        serverName asexual now).mother_z.isSome = true
    ∧ motherPosSet
        (create_nest nid seasonId speciesId motherId fatherId (chooseCoords pc)
          serverName asexual now).mother_x
        (create_nest nid seasonId speciesId motherId fatherId (chooseCoords pc)
          serverName asexual now).mother_y
        (create_nest nid seasonId speciesId motherId fatherId (chooseCoords pc)
          serverName asexual now).mother_z = true
    ∧ (hatch_button
        (some ((create_nest nid seasonId speciesId motherId fatherId (chooseCoords pc)
            serverName asexual now).mother_x,
          (create_nest nid seasonId speciesId motherId fatherId (chooseCoords pc)
            serverName asexual now).mother_y,
          (create_nest nid seasonId speciesId motherId fatherId (chooseCoords pc)
            serverName asexual now).mother_z))
        (some aid) nid playerId t eggs).remoteCmds
        = [RemoteCmd.setattrGrowth aid 0,
           RemoteCmd.teleportTo aid (chooseCoords pc).1 (chooseCoords pc).2.1
             (chooseCoords pc).2.2] := by
  refine ⟨rfl, rfl, rfl, rfl, ?_⟩
  cases hm : mark_egg_hatched nid playerId t eggs with
  | mk o eggs' =>
    cases o with
    | none => simp [hatch_button, create_nest, motherPosSet, hm]
    | some eggId => simp [hatch_button, create_nest, motherPosSet, hm]

/-! ## Player info decoder (`src/bot.py` get_playerinfo, lines 69-114) -/

/-- Python strings, modelled as lists of characters. -/
abbrev PyStr := List Char

/-- The whitespace class of Python's `\s` and `str.strip` (ASCII range,
which is all the replies contain). -/
def pyWhitespace (c : Char) : Bool :=
  c = ' ' || c = '\t' || c = '\n' || c = '\r' || c = '\x0b' || c = '\x0c'

/-- Python `str.strip()`. -/
def pyStrip (s : PyStr) : PyStr :=
  ((s.dropWhile pyWhitespace).reverse.dropWhile pyWhitespace).reverse

/-- Python `str.lower()` on the ASCII letters the field keys use. -/
def pyLowerChar (c : Char) : Char :=
  if 'A' ≤ c && c ≤ 'Z' then Char.ofNat (c.toNat + 32) else c

def pyLower (s : PyStr) : PyStr := s.map pyLowerChar

/-- Python `segment.split(":", 1)` when `":" in segment`: the parts before
and after the first occurrence of the separator. -/
def splitFirst (sep : Char) : PyStr → Option (PyStr × PyStr)
  | [] => none
  | c :: cs =>
    if c = sep then some ([], cs)
    else (splitFirst sep cs).map fun r => (c :: r.1, r.2)

/-- Worker for `splitOnSep`, structurally recursive on a fuel argument so
it computes in the kernel; each step consumes at least one character, so
fuel `s.length + 1` (supplied by `splitOnSep`) never runs out. -/
def splitOnSepFuel (sep : PyStr) : Nat → PyStr → PyStr → List PyStr
  | 0, s, acc => [acc.reverse ++ s]
  | fuel + 1, s, acc =>
    match s with
    | [] => [acc.reverse]
    | c :: cs =>
      if sep.isPrefixOf (c :: cs) then
        acc.reverse :: splitOnSepFuel sep fuel (cs.drop (sep.length - 1)) []
      else splitOnSepFuel sep fuel cs (c :: acc)

/-- Python `s.split(sep)` for a non-empty separator: split at every
non-overlapping occurrence, scanning left to right. -/
def splitOnSep (sep s : PyStr) : List PyStr :=
  splitOnSepFuel sep (s.length + 1) s []

/-- Python dict assignment `d[k] = v` on an association list: overwrite in
place when the key is present, else append. -/
def dictSet (d : List (PyStr × PyStr)) (k v : PyStr) : List (PyStr × PyStr) :=
  if d.any (fun q => q.1 == k) then
    d.map fun q => if q.1 == k then (k, v) else q
  else d ++ [(k, v)]

/-- Python `d.get(k)`. -/
def dictGet (d : List (PyStr × PyStr)) (k : PyStr) : Option PyStr :=
  (d.find? (fun q => q.1 == k)).map (·.2)

/-- The field-collection loop (bot.py lines 84-89): skip segments without
`":"`; otherwise split once at `":"`, strip both halves, lowercase the key
and store the pair. -/
def collectFields (segments : List PyStr) : List (PyStr × PyStr) :=
  segments.foldl
    (fun acc seg =>
      match splitFirst ':' seg with
      | none => acc
      | some (k, v) => dictSet acc (pyLower (pyStrip k)) (pyStrip v))
    []

/-- `re.sub(r"^\(playerinfo [^)]+\):\s*", "", resp)` (bot.py line 82):
strip an anchored `(playerinfo …): ` tag — at least one non-`)` character
before the `):`, then any run of whitespace; inputs not matching the
pattern are returned unchanged. -/
def stripInfoTag (s : PyStr) : PyStr :=
  let tag := "(playerinfo ".toList
  if tag.isPrefixOf s then
    let rest := s.drop tag.length
    let inside := rest.takeWhile (fun c => c != ')')
    match rest.drop inside.length with
    | ')' :: ':' :: tail =>
      if inside.length = 0 then s else tail.dropWhile pyWhitespace
    | _ => s
  else s

/-- The character class `[-\d\.]` of the location pattern (bot.py line 101). -/
def numClassChar (c : Char) : Bool :=
  c = '-' || c = '.' || ('0' ≤ c && c ≤ '9')

/-- Match `X=([-\d\.]+)\s*Y=([-\d\.]+)\s*Z=([-\d\.]+)` at the start of `s`,
returning the three groups. The class excludes whitespace and the letters
`Y` and `Z`, so the greedy maximal runs taken here coincide with what the
backtracking regex engine matches. -/
def matchXYZAt (s : PyStr) : Option (PyStr × PyStr × PyStr) :=
  match s with
  | 'X' :: '=' :: r1 =>
    let g1 := r1.takeWhile numClassChar
    if g1.isEmpty then none
    else
      match (r1.drop g1.length).dropWhile pyWhitespace with
      | 'Y' :: '=' :: r2 =>
        let g2 := r2.takeWhile numClassChar
        if g2.isEmpty then none
        else
          match (r2.drop g2.length).dropWhile pyWhitespace with
          | 'Z' :: '=' :: r3 =>
            let g3 := r3.takeWhile numClassChar
            if g3.isEmpty then none else some (g1, g2, g3)
          | _ => none
      | _ => none
  | _ => none

/-- `re.search` with the location pattern: the leftmost match, if any. -/
def searchXYZ : PyStr → Option (PyStr × PyStr × PyStr)
  | [] => none
  | c :: cs =>
    match matchXYZAt (c :: cs) with
    | some r => some r
    | none => searchXYZ cs

def isAsciiDigit (c : Char) : Bool := '0' ≤ c && c ≤ '9'

def natOfDigits (ds : PyStr) : Nat :=
  ds.foldl (fun acc c => acc * 10 + (c.toNat - '0'.toNat)) 0

/-- Python `float(...)` on the plain decimal shapes the location groups
take (`[-]digits`, `[-]digits.digits`, `[-]digits.`, `[-].digits`), as an
exact rational. `none` models the class-matching shapes `float()` rejects
(for instance `1.2.3`, `.` or `-`): there the Python call raises
`ValueError`, which `decodeCoords` / `get_playerinfo` propagate. -/
def parseDecimal (s : PyStr) : Option ℚ :=
  let core : Bool → PyStr → Option ℚ := fun neg t =>
    let ip := t.takeWhile isAsciiDigit
    let build : Nat → Nat → Nat → ℚ := fun i f k =>
      let den := Nat.pow 10 k
      let v : ℚ := mkRat (Int.ofNat (i * den + f)) den
      if neg then -v else v
    match t.drop ip.length with
    | [] => if ip.isEmpty then none else some (build (natOfDigits ip) 0 0)
    | '.' :: fr =>
      if fr.all isAsciiDigit && !(ip.isEmpty && fr.isEmpty) then
        some (build (natOfDigits ip) (natOfDigits fr) fr.length)
      else none
    | _ => none
  match s with
  | '-' :: r => core true r
  | _ => core false s

/-- The fixed-shape record a completed decode is read into; `none` is the
explicit "unset" value (Python `None` / absent dict key). -/
structure PlayerSnapshot where
  name : Option PyStr
  agid : Option PyStr
  species_code : Option PyStr
  growth : Option PyStr
  role : Option PyStr
  marks : Option PyStr
  coords : Option (ℚ × ℚ × ℚ)
  raw : PyStr
deriving DecidableEq

/-- The `fields` dict of `get_playerinfo` for a raw reply. -/
def playerFields (resp : PyStr) : List (PyStr × PyStr) :=
  collectFields (splitOnSep " / ".toList (stripInfoTag resp))

/-- The location-coordinates step of `get_playerinfo` (bot.py lines
99-103): when the location value is present and non-empty (Python
truthiness) and the `X= Y= Z=` pattern matches, its three groups are
converted with `float()`. That call sits outside any `try` (the decoder's
`try` covers only the RCON I/O at lines 73-79), so a captured group
`float()` rejects raises `ValueError` out of the decoder — the outer
`none`. `some none` is a completed decode with no coordinates. -/
def decodeCoords (location : Option PyStr) : Option (Option (ℚ × ℚ × ℚ)) :=
  match location with
  | none => some none
  | some loc =>
    if loc.isEmpty then some none
    else
      match searchXYZ loc with
      | none => some none
      | some (g1, g2, g3) =>
        match parseDecimal g1, parseDecimal g2, parseDecimal g3 with
        | some a, some b, some c => some (some (a, b, c))
        | _, _, _ => none

/-- The pure parsing part of `get_playerinfo` (bot.py lines 82-114): strip
the `(playerinfo …): ` tag, split into ` / `-separated `key: value` fields
(keys lowercased), then read out the recognized keys; `dinosaur` keeps its
case (`species_code`), `growth` stays a string. A `ValueError` escaping the
location step (see `decodeCoords`) aborts the whole call — result `none`,
no snapshot; the field lookups, which Python performs before the location
step, are pure, so propagating the error over them is sound. -/
def get_playerinfo (resp : PyStr) : Option PlayerSnapshot :=
  let respClean := stripInfoTag resp
  let fields := playerFields resp
  match decodeCoords (dictGet fields ("location".toList)) with
  | none => none
  | some coords =>
    some { name := dictGet fields "name".toList,
           agid := dictGet fields "agid".toList,
           species_code :=
             match dictGet fields "dinosaur".toList with
             | none => none
             | some d => if d.isEmpty then none else some d,
           growth := dictGet fields "growth".toList,
           role := dictGet fields "role".toList,
           marks := dictGet fields "marks".toList,
           coords := coords,
           raw := respClean }

/-- The concrete reply of the decoder claim. -/
def c9Input : PyStr :=
  "(playerinfo 123): Name: Rex / Dinosaur: Barsboldia / Growth: 0.91 / Location: X=10.0 Y=20.0 Z=30.0".toList

/-- A reply missing the Name (and every other) field while carrying a
Location whose first regex-captured group, `1.2.3`, `float()` rejects. -/
def c9Crash : PyStr := "Location: X=1.2.3 Y=4 Z=5".toList

/-- C9 counterexample: `c9Crash` is an input missing the Name field, yet
the decoder does not return a snapshot with name unset — the pattern
captures the group `1.2.3`, `float("1.2.3")` at bot.py line 103 raises
`ValueError` out of `get_playerinfo` (modelled `none`), so "the
corresponding output is an explicit unset value and no error is raised"
fails for this field-missing input. -/
theorem c9_missing_field_can_raise :
    dictGet (playerFields c9Crash) ("name".toList) = none
    ∧ get_playerinfo c9Crash = none := by
  decide

/-- The snapshot the sample reply decodes to: name "Rex", species code
"Barsboldia" with case preserved, growth kept as the string "0.91",
coordinates (10, 20, 30), every absent field unset. -/
def c9Expected : PlayerSnapshot :=
  { name := some "Rex".toList, agid := none,
    species_code := some "Barsboldia".toList,
    growth := some "0.91".toList, role := none, marks := none,
    coords := some (10, 20, 30),
    raw := "Name: Rex / Dinosaur: Barsboldia / Growth: 0.91 / Location: X=10.0 Y=20.0 Z=30.0".toList }

/-- C9 (amended): on the sample reply the decoder yields name "Rex",
species code "Barsboldia" with case preserved, growth kept as the string
"0.91" and coordinates (10, 20, 30). An input with no location field
always decodes without error, to a snapshot with coords unset; and on
every input whose decode completes (that is, on which line 103's `float()`
raises no ValueError), a missing name/dinosaur/growth/agid field yields
the explicit unset value `none` — but decoding does not always complete,
so "no error is raised" holds only in that qualified form. -/
theorem c9_decoder_fields_amended :
    get_playerinfo c9Input = some c9Expected
    ∧ (∀ resp : PyStr,
        dictGet (playerFields resp) ("location".toList) = none →
          ∃ snap, get_playerinfo resp = some snap ∧ snap.coords = none)
    ∧ ∀ resp : PyStr, ∀ snap : PlayerSnapshot, get_playerinfo resp = some snap →
        (dictGet (playerFields resp) ("name".toList) = none → snap.name = none)
        ∧ (dictGet (playerFields resp) ("dinosaur".toList) = none →
            snap.species_code = none)
        ∧ (dictGet (playerFields resp) ("growth".toList) = none → snap.growth = none)
        ∧ (dictGet (playerFields resp) ("agid".toList) = none → snap.agid = none) := by
  refine ⟨by decide, ?_, ?_⟩
  · intro resp h
    simp only [get_playerinfo, decodeCoords, h]
    exact ⟨_, rfl, rfl⟩
  · intro resp snap hsnap
    simp only [get_playerinfo] at hsnap
    cases hd : decodeCoords (dictGet (playerFields resp) ("location".toList)) with
    | none =>
      rw [hd] at hsnap
      simp at hsnap
    | some coords =>
      rw [hd] at hsnap
      simp only [Option.some.injEq] at hsnap
      subst hsnap
      refine ⟨?_, ?_, ?_, ?_⟩ <;> intro h
      · have h' : dictGet (playerFields resp)
            (['n', 'a', 'm', 'e'] : PyStr) = none := h
        simp [h']
      · have h' : dictGet (playerFields resp)
            (['d', 'i', 'n', 'o', 's', 'a', 'u', 'r'] : PyStr) = none := h
        simp [h']
      · have h' : dictGet (playerFields resp)
            (['g', 'r', 'o', 'w', 't', 'h'] : PyStr) = none := h
        simp [h']
      · have h' : dictGet (playerFields resp)
            (['a', 'g', 'i', 'd'] : PyStr) = none := h
        simp [h']

/-- A reply with no parseable field at all; its decode completes. -/
def c9Bare : PyStr := "hello".toList

/-- The snapshot `c9Bare` decodes to. -/
def c9BareSnap : PlayerSnapshot :=
  { name := none, agid := none, species_code := none, growth := none,
    role := none, marks := none, coords := none, raw := "hello".toList }

theorem c9_decoder_fields_amended_witness :
    (∃ snap, get_playerinfo c9Bare = some snap ∧ snap.coords = none)
    ∧ c9BareSnap.name = none
    ∧ c9BareSnap.species_code = none
    ∧ c9BareSnap.growth = none
    ∧ c9BareSnap.agid = none :=
  ⟨c9_decoder_fields_amended.2.1 c9Bare (by decide),
   (c9_decoder_fields_amended.2.2 c9Bare c9BareSnap (by decide)).1 (by decide),
   (c9_decoder_fields_amended.2.2 c9Bare c9BareSnap (by decide)).2.1 (by decide),
   (c9_decoder_fields_amended.2.2 c9Bare c9BareSnap (by decide)).2.2.1 (by decide),
   (c9_decoder_fields_amended.2.2 c9Bare c9BareSnap (by decide)).2.2.2 (by decide)⟩
